import Mathlib

/-! Verification development for the roofing brochure site (`src/App.jsx`).

The interactive logic of `App.jsx` is embedded shallowly:

* the scroll handlers of `PortfolioSection` and `RealisationsPage`
  (title fade and card fade) as pure functions of the measured rectangles;
* the gallery filter of `RealisationsPage`;
* the intersection observers as a one-step transition on `isVisible`;
* the auto-scroll effect of `TestimonialsSection` as a transition system
  over its closure variables and the browser's timer table.

JavaScript numbers are modelled by `JSNum`: exact rationals extended with
`Infinity`, `-Infinity` and `NaN`.  Rounding and the sign of zero are not
modelled; every division by zero follows the IEEE rules for a positive zero.
-/

namespace App

/-! ## JavaScript numbers -/

/-- A JavaScript number: a finite value, one of the two infinities, or NaN. -/
inductive JSNum where
  | fin (q : ℚ)
  | posInf
  | negInf
  | nan
  deriving DecidableEq

namespace JSNum

instance : OfNat JSNum n := ⟨fin n⟩

/-- The sign of a JavaScript number that is not NaN: `-1`, `0` or `1`. -/
def sgn : JSNum → Int
  | fin q => if q < 0 then -1 else if q = 0 then 0 else 1
  | posInf => 1
  | negInf => -1
  | nan => 0

/-- The infinity of a given non-zero sign. -/
def ofSign (s : Int) : JSNum :=
  if s < 0 then negInf else posInf

/-- The operator `a - b`. -/
def sub : JSNum → JSNum → JSNum
  | nan, _ => nan
  | _, nan => nan
  | fin a, fin b => fin (a - b)
  | fin _, posInf => negInf
  | fin _, negInf => posInf
  | posInf, posInf => nan
  | posInf, _ => posInf
  | negInf, negInf => nan
  | negInf, _ => negInf

/-- The operator `a * b`. -/
def mul : JSNum → JSNum → JSNum
  | nan, _ => nan
  | _, nan => nan
  | fin a, fin b => fin (a * b)
  | a, b => if a.sgn * b.sgn = 0 then nan else ofSign (a.sgn * b.sgn)

/-- The operator `a / b`; a zero divisor counts as `+0`. -/
def div : JSNum → JSNum → JSNum
  | nan, _ => nan
  | _, nan => nan
  | fin a, fin b =>
    if b = 0 then (if a = 0 then nan else if 0 < a then posInf else negInf)
    else fin (a / b)
  | fin _, _ => fin 0
  | posInf, fin b => if b < 0 then negInf else posInf
  | negInf, fin b => if b < 0 then posInf else negInf
  | _, _ => nan

/-- The comparison `a <= b`, false as soon as one side is NaN. -/
def le : JSNum → JSNum → Bool
  | nan, _ => false
  | _, nan => false
  | negInf, _ => true
  | _, posInf => true
  | fin a, fin b => decide (a ≤ b)
  | _, _ => false

/-- The comparison `a > b`, false as soon as one side is NaN. -/
def gt : JSNum → JSNum → Bool
  | nan, _ => false
  | _, nan => false
  | posInf, posInf => false
  | posInf, _ => true
  | negInf, _ => false
  | fin _, negInf => true
  | fin _, posInf => false
  | fin a, fin b => decide (b < a)

/-- The function `Math.min(a, b)`: NaN if either argument is NaN. -/
def min : JSNum → JSNum → JSNum
  | nan, _ => nan
  | _, nan => nan
  | a, b => if a.le b then a else b

/-- The function `Math.max(a, b)`: NaN if either argument is NaN. -/
def max : JSNum → JSNum → JSNum
  | nan, _ => nan
  | _, nan => nan
  | a, b => if a.le b then b else a

/-- A finite number lying in the closed interval `[lo, hi]`. -/
def within (lo hi : ℚ) : JSNum → Prop
  | fin q => lo ≤ q ∧ q ≤ hi
  | _ => False

end JSNum

/-! ## Scroll-linked fading (`PortfolioSection`, `RealisationsPage`) -/

/-- The fields of `getBoundingClientRect()` read by the scroll handlers. -/
structure DOMRect where
  top : ℚ
  bottom : ℚ
  height : ℚ
  deriving DecidableEq

/-- The objects `{ opacity, scale }` kept in `travailsState` and `cardStates`. -/
structure FadeState where
  opacity : JSNum
  scale : JSNum
  deriving DecidableEq

namespace PortfolioSection

/-- Lines 254-270: the new `travailsState`.  `firstCard` is `cardsRef.current[0]`
and `title` is `titleRef.current`; a missing element is `none` and leaves the
state as it was. -/
def titleState (travailsState : FadeState) (firstCard title : Option DOMRect) : FadeState :=
  match firstCard, title with
  | some cardRect, some titleRect =>
    let overlap := JSNum.sub (.fin titleRect.bottom) (.fin cardRect.top)
    if overlap.gt 0 then
      let progress := JSNum.min 1 (JSNum.div overlap (JSNum.mul (.fin titleRect.height) (.fin 0.5)))
      { opacity := JSNum.max 0 (JSNum.sub 1 progress)
        scale := JSNum.max (.fin 0.85) (JSNum.sub 1 (JSNum.mul progress (.fin 0.15))) }
    else
      { opacity := 1, scale := 1 }
  | _, _ => travailsState

/-- Lines 272-293: the callback of `cardsRef.current.map`, for the element
`card` at position `index` of an array of `length` references. -/
def cardState (innerHeight : ℚ) (length : Nat) (index : Nat) (card : Option DOMRect) : FadeState :=
  match card with
  | none => { opacity := 1, scale := 1 }
  | some rect =>
    let isLastCard : Bool := decide ((index : Int) = (length : Int) - 1)
    if isLastCard then { opacity := 1, scale := 1 }
    else
      let cardTop := JSNum.fin rect.top
      let stickyTop := JSNum.mul (.fin innerHeight) (.fin 0.12)
      if cardTop.le stickyTop then
        let progress :=
          JSNum.min 1 (JSNum.div (JSNum.sub stickyTop cardTop) (JSNum.mul (.fin rect.height) (.fin 0.5)))
        { opacity := JSNum.max 0 (JSNum.sub 1 progress)
          scale := JSNum.max (.fin 0.85) (JSNum.sub 1 (JSNum.mul progress (.fin 0.15))) }
      else
        { opacity := 1, scale := 1 }

/-- The scroll listener: the pair of the new `travailsState` and the new
`cardStates`, from the measured title, the measured cards and
`window.innerHeight`. -/
def handleScroll (cards : List (Option DOMRect)) (title : Option DOMRect) (innerHeight : ℚ)
    (travailsState : FadeState) : FadeState × List FadeState :=
  (titleState travailsState cards.head?.join title,
   cards.mapIdx (fun index card => cardState innerHeight cards.length index card))

end PortfolioSection

namespace RealisationsPage

/-- Lines 402-418: the new `travailsState` of the gallery page. -/
def titleState (travailsState : FadeState) (firstCard title : Option DOMRect) : FadeState :=
  match firstCard, title with
  | some cardRect, some titleRect =>
    let overlap := JSNum.sub (.fin titleRect.bottom) (.fin cardRect.top)
    if overlap.gt 0 then
      let progress := JSNum.min 1 (JSNum.div overlap (JSNum.mul (.fin titleRect.height) (.fin 0.5)))
      { opacity := JSNum.max 0 (JSNum.sub 1 progress)
        scale := JSNum.max (.fin 0.85) (JSNum.sub 1 (JSNum.mul progress (.fin 0.15))) }
    else
      { opacity := 1, scale := 1 }
  | _, _ => travailsState

/-- Lines 420-441: the callback of `cardsRef.current.map` of the gallery page. -/
def cardState (innerHeight : ℚ) (length : Nat) (index : Nat) (card : Option DOMRect) : FadeState :=
  match card with
  | none => { opacity := 1, scale := 1 }
  | some rect =>
    let isLastCard : Bool := decide ((index : Int) = (length : Int) - 1)
    if isLastCard then { opacity := 1, scale := 1 }
    else
      let cardTop := JSNum.fin rect.top
      let stickyTop := JSNum.mul (.fin innerHeight) (.fin 0.12)
      if cardTop.le stickyTop then
        let progress :=
          JSNum.min 1 (JSNum.div (JSNum.sub stickyTop cardTop) (JSNum.mul (.fin rect.height) (.fin 0.5)))
        { opacity := JSNum.max 0 (JSNum.sub 1 progress)
          scale := JSNum.max (.fin 0.85) (JSNum.sub 1 (JSNum.mul progress (.fin 0.15))) }
      else
        { opacity := 1, scale := 1 }

/-- The scroll listener of the gallery page. -/
def handleScroll (cards : List (Option DOMRect)) (title : Option DOMRect) (innerHeight : ℚ)
    (travailsState : FadeState) : FadeState × List FadeState :=
  (titleState travailsState cards.head?.join title,
   cards.mapIdx (fun index card => cardState innerHeight cards.length index card))

end RealisationsPage

/-! ## Gallery filter (`RealisationsPage`) -/

namespace RealisationsPage

/-- An entry of `filters`. -/
structure Filter where
  id : String
  label : String
  deriving DecidableEq

/-- An entry of `allProjects`. -/
structure Project where
  name : String
  location : String
  category : String
  image : String
  deriving DecidableEq

/-- Lines 371-377. -/
def filters : List Filter :=
  [ { id := "all", label := "Tous" },
    { id := "tuiles", label := "Tuiles" },
    { id := "ardoise", label := "Ardoise" },
    { id := "zinc", label := "Zinc" },
    { id := "renovation", label := "Rénovation" } ]

/-- Lines 379-388. -/
def allProjects : List Project :=
  [ { name := "DUPONT", location := "Arras", category := "tuiles",
      image := "https://images.pexels.com/photos/18397905/pexels-photo-18397905.jpeg?auto=compress&cs=tinysrgb&w=800" },
    { name := "LEFEBVRE", location := "Lens", category := "ardoise",
      image := "https://images.pexels.com/photos/164558/pexels-photo-164558.jpeg?auto=compress&cs=tinysrgb&w=800" },
    { name := "MARTIN", location := "Douai", category := "zinc",
      image := "https://images.pexels.com/photos/32682864/pexels-photo-32682864.jpeg?auto=compress&cs=tinysrgb&w=800" },
    { name := "DURAND", location := "Beaurins", category := "renovation",
      image := "https://images.pexels.com/photos/3935333/pexels-photo-3935333.jpeg?auto=compress&cs=tinysrgb&w=800" },
    { name := "BERNARD", location := "Béthune", category := "tuiles",
      image := "https://images.pexels.com/photos/32152511/pexels-photo-32152511.png?auto=compress&cs=tinysrgb&w=800" },
    { name := "MOREAU", location := "Liévin", category := "ardoise",
      image := "https://images.pexels.com/photos/1396132/pexels-photo-1396132.jpeg?auto=compress&cs=tinysrgb&w=800" },
    { name := "PETIT", location := "Henin", category := "zinc",
      image := "https://images.pexels.com/photos/23510958/pexels-photo-23510958.jpeg?auto=compress&cs=tinysrgb&w=800" },
    { name := "ROUX", location := "Carvin", category := "renovation",
      image := "https://images.pexels.com/photos/1212053/pexels-photo-1212053.jpeg?auto=compress&cs=tinysrgb&w=800" } ]

/-- Lines 390-392: the projects shown for the filter id held in `activeFilter`. -/
def filteredProjects (activeFilter : String) : List Project :=
  if activeFilter = "all" then allProjects
  else allProjects.filter (fun p => decide (p.category = activeFilter))

end RealisationsPage

/-! ## Intersection-triggered reveal -/

/-- The field of an `IntersectionObserverEntry` read by the callbacks. -/
structure ObserverEntry where
  isIntersecting : Bool
  deriving DecidableEq

/-- The `isVisible` state of a section together with its observer callback.
The callback receives the array of entries and destructures its first
element; the browser never passes an empty array (on one the destructured
read throws and the state is left as it was). -/
structure Reveal where
  isVisible₀ : Bool
  callback : Bool → List ObserverEntry → Bool

/-- Lines 132-143: `useState(false)` and the observer callback of `ServicesSection`. -/
def ServicesSection.reveal : Reveal where
  isVisible₀ := false
  callback isVisible entries :=
    match entries with
    | entry :: _ => if entry.isIntersecting then true else isVisible
    | [] => isVisible

/-- Lines 566 and 589-596: the same for `ServicesCarousel`. -/
def ServicesCarousel.reveal : Reveal where
  isVisible₀ := false
  callback isVisible entries :=
    match entries with
    | entry :: _ => if entry.isIntersecting then true else isVisible
    | [] => isVisible

/-- Lines 672 and 703-710: the same for `TestimonialsSection`. -/
def TestimonialsSection.reveal : Reveal where
  isVisible₀ := false
  callback isVisible entries :=
    match entries with
    | entry :: _ => if entry.isIntersecting then true else isVisible
    | [] => isVisible

/-- Lines 852 and 856-863: the same for `CTASection`. -/
def CTASection.reveal : Reveal where
  isVisible₀ := false
  callback isVisible entries :=
    match entries with
    | entry :: _ => if entry.isIntersecting then true else isVisible
    | [] => isVisible

/-- The value of `isVisible` after the observer has delivered `calls` in order. -/
def Reveal.after (r : Reveal) (calls : List (List ObserverEntry)) : Bool :=
  calls.foldl r.callback r.isVisible₀

/-- Whether the entry destructured from a delivery is intersecting. -/
def entryIntersecting (entries : List ObserverEntry) : Bool :=
  match entries with
  | entry :: _ => entry.isIntersecting
  | [] => false

/-! ## Auto-scroll of the testimonials (`TestimonialsSection`) -/

namespace TestimonialsSection

/-- An entry of `testimonials`. -/
structure Testimonial where
  quote : String
  location : String
  image : String
  deriving DecidableEq

/-- Lines 677-693. -/
def testimonials : List Testimonial :=
  [ { quote := "Travail impeccable, &eacute;quipe r&eacute;active et professionnelle. Je recommande &agrave; 100%.",
      location := "Arras (62)",
      image := "https://images.unsplash.com/photo-1568605114967-8130f3a36994?w=800&q=80" },
    { quote := "Intervention rapide apr&egrave;s la temp&ecirc;te. Toiture r&eacute;par&eacute;e en moins de 48h. Merci !",
      location := "Lens (62)",
      image := "https://images.unsplash.com/photo-1564013799919-ab600027ffc6?w=800&q=80" },
    { quote := "Devis clair, travaux propres, d&eacute;lais respect&eacute;s. Que demander de plus ?",
      location := "Douai (59)",
      image := "https://images.unsplash.com/photo-1600596542815-ffad4c1539a9?w=800&q=80" } ]

/-- The callbacks the effect hands to `setTimeout` and `setInterval`. -/
inductive TimerKind where
  /-- `setTimeout(..., 3000)` of line 753 -/
  | startDelay
  /-- `setTimeout(..., 6000)` of line 771 -/
  | restart
  /-- `setInterval(autoScroll, 4000)` of lines 754 and 775 -/
  | interval
  /-- `setTimeout(..., 500)` of line 747 -/
  | resetFlag
  deriving DecidableEq

/-- The closure variables of the auto-scroll effect, the ref it writes, and
the part of the browser it acts on: the table of live timers, the next timer
handle, whether the touch listeners are attached, and the `left` values
passed to `container.scrollTo`, oldest first. -/
structure AutoScroll where
  currentIndex : Int
  isAutoScrolling : Bool
  userInteracted : Bool
  restartTimeout : Option Nat
  startDelayTimeout : Option Nat
  autoScrollRef : Option Nat
  listening : Bool
  nextHandle : Nat
  timers : List (Nat × TimerKind)
  scrolled : List Int
  deriving DecidableEq

/-- What the effect can observe: the two touch events, a timer of the table
coming due (with the `offsetWidth` of the first `.testimonial-card`, if there
is one, and `container.scrollLeft` as read at that moment), and the cleanup
returned by the effect. -/
inductive Event where
  | touchStart
  | touchEnd
  | timer (handle : Nat) (card : Option Nat) (scrollLeft : ℚ)
  | cleanup

/-- The calls `setTimeout(cb, _)` and `setInterval(cb, _)`: a fresh handle is
returned and entered in the table. -/
def setTimer (kind : TimerKind) (s : AutoScroll) : Nat × AutoScroll :=
  (s.nextHandle,
   { s with nextHandle := s.nextHandle + 1, timers := s.timers ++ [(s.nextHandle, kind)] })

/-- The calls `clearTimeout(h)` and `clearInterval(h)`, which share one table. -/
def clearTimer (handle : Nat) (s : AutoScroll) : AutoScroll :=
  { s with timers := s.timers.filter (fun t => decide (t.1 ≠ handle)) }

/-- The handle held by a variable when its value is truthy (`null` and `0` are not). -/
def truthy (v : Option Nat) : Option Nat :=
  match v with
  | some h => if h = 0 then none else some h
  | none => none

/-- Lines 729-732: `getCardWidth`, from the `offsetWidth` of the first card. -/
def getCardWidth (card : Option Nat) : Int :=
  match card with
  | some offsetWidth => (offsetWidth : Int) + 16
  | none => 320

/-- The function `Math.round` on a finite value: nearest integer, ties upwards. -/
def mathRound (x : ℚ) : Int := ⌊x + 1 / 2⌋

/-- Lines 734-750: `autoScroll`.  The remainder `%` truncates towards zero. -/
def autoScroll (card : Option Nat) (s : AutoScroll) : AutoScroll :=
  if s.userInteracted then s
  else
    let currentIndex := Int.tmod (s.currentIndex + 1) (testimonials.length : Int)
    let cardWidth := getCardWidth card
    let s := { s with isAutoScrolling := true, currentIndex := currentIndex,
                      scrolled := s.scrolled ++ [currentIndex * cardWidth] }
    (setTimer .resetFlag s).2

/-- Lines 758-767: `handleTouchStart`. -/
def handleTouchStart (s : AutoScroll) : AutoScroll :=
  let s := { s with userInteracted := true }
  let s :=
    match truthy s.autoScrollRef with
    | some h => { clearTimer h s with autoScrollRef := none }
    | none => s
  match truthy s.restartTimeout with
  | some h => clearTimer h s
  | none => s

/-- Lines 769-777: `handleTouchEnd`. -/
def handleTouchEnd (s : AutoScroll) : AutoScroll :=
  let (h, s) := setTimer .restart s
  { s with restartTimeout := some h }

/-- Lines 753-755: the callback of the start delay. -/
def onStartDelay (s : AutoScroll) : AutoScroll :=
  let (h, s) := setTimer .interval s
  { s with autoScrollRef := some h }

/-- Lines 771-776: the callback of a restart timer.  `cardWidth` is at least 16. -/
def onRestart (card : Option Nat) (scrollLeft : ℚ) (s : AutoScroll) : AutoScroll :=
  let s := { s with userInteracted := false }
  let cardWidth := getCardWidth card
  let s := { s with currentIndex := mathRound (scrollLeft / (cardWidth : ℚ)) }
  let (h, s) := setTimer .interval s
  { s with autoScrollRef := some h }

/-- Lines 782-788: the cleanup returned by the effect. -/
def cleanup (s : AutoScroll) : AutoScroll :=
  let s := match truthy s.startDelayTimeout with
    | some h => clearTimer h s
    | none => s
  let s := match truthy s.autoScrollRef with
    | some h => clearTimer h s
    | none => s
  let s := match truthy s.restartTimeout with
    | some h => clearTimer h s
    | none => s
  { s with listening := false }

/-- Lines 723-727, 753-755 and 779-780: the state once the effect body has run
(with `isVisible` true and the container mounted). -/
def init : AutoScroll :=
  let s : AutoScroll :=
    { currentIndex := 0, isAutoScrolling := false, userInteracted := false,
      restartTimeout := none, startDelayTimeout := none, autoScrollRef := none,
      listening := false, nextHandle := 1, timers := [], scrolled := [] }
  let (h, s) := setTimer .startDelay s
  { s with startDelayTimeout := some h, listening := true }

/-- Consecutive runs of `autoScroll`, one per entry of `cards` (the card
measured by `getCardWidth` at that run). -/
def autoScrollRuns (cards : List (Option Nat)) (s : AutoScroll) : AutoScroll :=
  cards.foldl (fun s card => autoScroll card s) s

/-- One event.  A timeout leaves the table when it comes due, an interval
stays; a handle that is not in the table does nothing, and neither does a
touch event once the listeners are removed. -/
def step (s : AutoScroll) : Event → AutoScroll
  | .touchStart => if s.listening then handleTouchStart s else s
  | .touchEnd => if s.listening then handleTouchEnd s else s
  | .timer handle card scrollLeft =>
    match s.timers.lookup handle with
    | none => s
    | some .interval => autoScroll card s
    | some .startDelay => onStartDelay (clearTimer handle s)
    | some .restart => onRestart card scrollLeft (clearTimer handle s)
    | some .resetFlag => { clearTimer handle s with isAutoScrolling := false }
  | .cleanup => cleanup s

/-- The state after a sequence of events. -/
def run (s : AutoScroll) (events : List Event) : AutoScroll :=
  events.foldl step s

/-- Whether event `e`, arriving in state `s`, is a restart timer coming due. -/
def firesRestart (s : AutoScroll) : Event → Bool
  | .timer handle _ _ => decide (s.timers.lookup handle = some .restart)
  | _ => false

/-- No restart timer comes due while `events` are handled from state `s`. -/
def noRestartFires (s : AutoScroll) : List Event → Bool
  | [] => true
  | e :: events => !firesRestart s e && noRestartFires (step s e) events

/-- Whether event `e`, arriving in state `s`, is the start delay coming due. -/
def firesStartDelay (s : AutoScroll) : Event → Bool
  | .timer handle _ _ => decide (s.timers.lookup handle = some .startDelay)
  | _ => false

/-- The start delay does not come due while `events` are handled from state `s`. -/
def noStartDelayFires (s : AutoScroll) : List Event → Bool
  | [] => true
  | e :: events => !firesStartDelay s e && noStartDelayFires (step s e) events

/-- Handle `h` has been issued and is no longer in the timer table. -/
def handleGone (h : Nat) (s : AutoScroll) : Prop :=
  h < s.nextHandle ∧ ∀ k, (h, k) ∉ s.timers

/-- The handle kept in `autoScrollRef`, if any, is a positive handle that
has been issued. -/
def refIssued (s : AutoScroll) : Prop :=
  1 ≤ s.nextHandle ∧ ∀ h, s.autoScrollRef = some h → 1 ≤ h ∧ h < s.nextHandle

end TestimonialsSection

/-! ## Results count of the gallery (`RealisationsPage`) -/

namespace RealisationsPage

/-- The method `toLowerCase` on the labels of `filters`, whose only upper-case
letters are ASCII initials; other characters are left as they are. -/
def toLowerCase (s : String) : String := String.mk (s.data.map Char.toLower)

/-- Lines 511-516: the `key` of each card rendered, one per entry of
`filteredProjects`. -/
def renderedCardKeys (activeFilter : String) : List String :=
  (filteredProjects activeFilter).map (fun project => project.name ++ "-" ++ activeFilter)

/-- Lines 549-552: the children of the results paragraph, in order: the count,
the noun, the plural mark, and the suffix, as a function of the two variables
the expression reads, `filteredProjects` and `activeFilter`.  A child that is
`false` renders as the empty text, and an `undefined` inside the template
literal renders as `undefined`. -/
def resultsCountOf (filteredProjects : List Project) (activeFilter : String) : List String :=
  [ toString filteredProjects.length,
    " réalisation",
    if filteredProjects.length > 1 then "s" else "",
    if activeFilter ≠ "all" then
      " en " ++
        (match filters.find? (fun f => decide (f.id = activeFilter)) with
         | some f => toLowerCase f.label
         | none => "undefined")
    else "" ]

/-- The children of the results paragraph as rendered by the page, where
`filteredProjects` is the value computed at lines 390-392. -/
def resultsCount (activeFilter : String) : List String :=
  resultsCountOf (filteredProjects activeFilter) activeFilter

end RealisationsPage

/-! ## Hero parallax (`Hero`) -/

namespace Hero

/-- Lines 78 and 82-84: `offset` starts at 0 and `handleScroll` stores
`window.scrollY` in it. -/
def handleScroll (scrollY : ℚ) : ℚ := scrollY

/-- Line 121: the length, in pixels, of the logo's `translateY`. -/
def translateY (offset : ℚ) : ℚ := offset * 0.4

end Hero

/-! ## Floating menu (`FloatingMenu`) and the ids of the home page -/

/-- The `id` attributes of the elements rendered by `HomePage` (lines
1051-1060), component by component, in document order. -/
def HomePage.elementIds : List String :=
  [] ++                 -- Header
  [] ++                 -- Hero
  [] ++                 -- ServicesSection (line 171)
  ["realisations"] ++   -- PortfolioSection (line 303)
  [] ++                 -- ServicesCarousel (line 606)
  [] ++                 -- CamionnetteSection (line 664)
  [] ++                 -- TestimonialsSection (line 792)
  ["contact"] ++        -- CTASection (line 873)
  [] ++                 -- Footer (line 898)
  []                    -- FloatingMenu

/-- The call `document.querySelector(selector)` for an id selector `#name`, on
a document given by the ids of its elements: the first element with that id,
named by its id.  Other selectors are not modelled and match nothing. -/
def querySelector (document : List String) (selector : String) : Option String :=
  match selector.data with
  | '#' :: name => document.find? (fun id => decide (id = String.mk name))
  | _ => none

namespace FloatingMenu

/-- An entry of `menuItems`; a field the literal leaves out is `none`.  The
field `to` is named `linkTo` here. -/
structure MenuItem where
  label : String
  linkTo : Option String
  href : Option String
  isLink : Bool
  deriving DecidableEq

/-- Lines 961-967. -/
def menuItems : List MenuItem :=
  [ { label := "Accueil", linkTo := some "/", href := none, isLink := true },
    { label := "Services", linkTo := none, href := some "/#services", isLink := false },
    { label := "Réalisations", linkTo := some "/realisations", href := none, isLink := true },
    { label := "Avis", linkTo := none, href := some "/#avis", isLink := false },
    { label := "Contact", linkTo := none, href := some "/#contact", isLink := false } ]

/-- What a call of `handleClick` does: the value given to `setIsOpen`, the
selector passed to `document.querySelector`, the element on which
`scrollIntoView({ behavior: 'smooth' })` is called, the value assigned to
`window.location.href`, and whether reading `item.href.startsWith` threw. -/
structure ClickEffect where
  isOpen : Bool
  queried : Option String
  scrolledTo : Option String
  locationHref : Option String
  threw : Bool
  deriving DecidableEq

/-- The text `item.href.replace('/', '')`: the first `/` is removed. -/
def hashOf (href : String) : String := String.mk (href.data.erase '/')

/-- Lines 969-984: `handleClick`, for `location.pathname` and the ids of the
elements of the document. -/
def handleClick (pathname : String) (document : List String) (item : MenuItem) : ClickEffect :=
  let closed : ClickEffect :=
    { isOpen := false, queried := none, scrolledTo := none, locationHref := none, threw := false }
  if item.isLink then closed
  else
    match item.href with
    | none => { closed with threw := true }
    | some href =>
      if List.isPrefixOf "/#".data href.data then
        let hash := hashOf href
        if pathname = "/" then
          match querySelector document hash with
          | some element => { closed with queried := some hash, scrolledTo := some element }
          | none => { closed with queried := some hash }
        else
          { closed with locationHref := some href }
      else closed

end FloatingMenu

/-! ## Shared facts about the fade formulas -/

theorem RealisationsPage.cardState_eq :
    RealisationsPage.cardState = PortfolioSection.cardState := rfl

theorem RealisationsPage.titleState_eq :
    RealisationsPage.titleState = PortfolioSection.titleState := rfl

theorem RealisationsPage.handleScroll_eq :
    RealisationsPage.handleScroll = PortfolioSection.handleScroll := rfl

namespace JSNum

theorem one_eq : (1 : JSNum) = fin 1 := by
  show fin ((1 : Nat) : ℚ) = fin 1
  norm_num

theorem zero_eq : (0 : JSNum) = fin 0 := by
  show fin ((0 : Nat) : ℚ) = fin 0
  norm_num

theorem sub_fin (a b : ℚ) : sub (fin a) (fin b) = fin (a - b) := rfl

theorem mul_fin (a b : ℚ) : mul (fin a) (fin b) = fin (a * b) := rfl

theorem div_fin (a b : ℚ) (hb : b ≠ 0) : div (fin a) (fin b) = fin (a / b) := by
  simp [div, hb]

theorem le_fin (a b : ℚ) : le (fin a) (fin b) = decide (a ≤ b) := rfl

theorem gt_fin (a b : ℚ) : gt (fin a) (fin b) = decide (b < a) := rfl

theorem min_fin (a b : ℚ) : min (fin a) (fin b) = fin (Min.min a b) := by
  by_cases h : a ≤ b
  · simp [min, le, h]
  · simp [min, le, h, min_eq_right (le_of_not_le h)]

theorem max_fin (a b : ℚ) : max (fin a) (fin b) = fin (Max.max a b) := by
  by_cases h : a ≤ b
  · simp [max, le, h]
  · simp [max, le, h, max_eq_left (le_of_not_le h)]

end JSNum

/-- The fade formula on a finite progress value `x` clamped at 1. -/
theorem fade_of_progress (x : ℚ) :
    (⟨JSNum.max 0 (JSNum.sub 1 (JSNum.min 1 (.fin x))),
      JSNum.max (.fin 0.85) (JSNum.sub 1 (JSNum.mul (JSNum.min 1 (.fin x)) (.fin 0.15)))⟩ : FadeState)
      = ⟨.fin (max 0 (1 - min 1 x)), .fin (max 0.85 (1 - min 1 x * 0.15))⟩ := by
  simp only [JSNum.one_eq, JSNum.zero_eq, JSNum.min_fin, JSNum.sub_fin, JSNum.mul_fin,
    JSNum.max_fin]

/-- Closed form of the card callback on a card that is not the last one and
whose height is not zero. -/
theorem PortfolioSection.cardState_of_height (innerHeight : ℚ) (length index : Nat)
    (rect : DOMRect) (hlast : (index : Int) ≠ (length : Int) - 1) (hh : rect.height ≠ 0) :
    PortfolioSection.cardState innerHeight length index (some rect) =
      if rect.top ≤ innerHeight * 0.12 then
        ⟨.fin (max 0 (1 - min 1 ((innerHeight * 0.12 - rect.top) / (rect.height * 0.5)))),
         .fin (max 0.85 (1 - min 1 ((innerHeight * 0.12 - rect.top) / (rect.height * 0.5)) * 0.15))⟩
      else ⟨1, 1⟩ := by
  have h5 : rect.height * 0.5 ≠ 0 := mul_ne_zero hh (by norm_num)
  simp only [PortfolioSection.cardState, hlast, decide_False, JSNum.mul_fin, JSNum.sub_fin,
    JSNum.le_fin, JSNum.div_fin _ _ h5, fade_of_progress]
  by_cases h : rect.top ≤ innerHeight * 0.12 <;> simp [h]

/-- Closed form of the title update when both elements are mounted and the
title's height is not zero. -/
theorem PortfolioSection.titleState_of_height (st : FadeState) (cardRect titleRect : DOMRect)
    (hh : titleRect.height ≠ 0) :
    PortfolioSection.titleState st (some cardRect) (some titleRect) =
      if 0 < titleRect.bottom - cardRect.top then
        ⟨.fin (max 0 (1 - min 1 ((titleRect.bottom - cardRect.top) / (titleRect.height * 0.5)))),
         .fin (max 0.85
           (1 - min 1 ((titleRect.bottom - cardRect.top) / (titleRect.height * 0.5)) * 0.15))⟩
      else ⟨1, 1⟩ := by
  have h5 : titleRect.height * 0.5 ≠ 0 := mul_ne_zero hh (by norm_num)
  simp only [PortfolioSection.titleState, JSNum.mul_fin, JSNum.sub_fin,
    JSNum.div_fin _ _ h5, fade_of_progress]
  simp only [JSNum.zero_eq, JSNum.gt_fin]
  by_cases h : 0 < titleRect.bottom - cardRect.top <;> simp [h]

/-- The entry of `newStates` at a position inside the array. -/
theorem PortfolioSection.handleScroll_getElem? (cards : List (Option DOMRect))
    (title : Option DOMRect) (innerHeight : ℚ) (st : FadeState) (i : Nat) :
    (PortfolioSection.handleScroll cards title innerHeight st).2[i]? =
      (cards[i]?).map (PortfolioSection.cardState innerHeight cards.length i) := by
  simp [PortfolioSection.handleScroll]

/-- Bounds of the fade formula on a non-negative progress value. -/
theorem fade_bounds (x : ℚ) (hx : 0 ≤ x) :
    (0 ≤ max 0 (1 - min 1 x) ∧ max 0 (1 - min 1 x) ≤ 1) ∧
      (0.85 ≤ max 0.85 (1 - min 1 x * 0.15) ∧ max 0.85 (1 - min 1 x * 0.15) ≤ 1) := by
  have h0 : 0 ≤ min 1 x := le_min (by norm_num) hx
  have h1 : min 1 x ≤ 1 := min_le_left _ _
  refine ⟨⟨le_max_left _ _, max_le (by norm_num) (by linarith)⟩,
    ⟨le_max_left _ _, max_le (by norm_num) (by linarith)⟩⟩

/-- The fade formula when the progress value is clamped to 1. -/
theorem fade_full (x : ℚ) (hx : 1 ≤ x) :
    max 0 (1 - min 1 x) = 0 ∧ max 0.85 (1 - min 1 x * 0.15) = 0.85 := by
  rw [min_eq_left hx]
  norm_num

/-- The fade formula when the progress value is not clamped. -/
theorem fade_linear (x : ℚ) (h1 : x ≤ 1) :
    max 0 (1 - min 1 x) = 1 - x ∧ max 0.85 (1 - min 1 x * 0.15) = 1 - x * 0.15 := by
  rw [min_eq_right h1]
  constructor
  · exact max_eq_right (by linarith)
  · exact max_eq_right (by linarith)

/-- Card callback on a card of height zero that lies strictly above the sticky line. -/
theorem PortfolioSection.cardState_of_zero_height (innerHeight : ℚ) (length index : Nat)
    (rect : DOMRect) (hlast : (index : Int) ≠ (length : Int) - 1) (hh : rect.height = 0)
    (htop : rect.top < innerHeight * 0.12) :
    PortfolioSection.cardState innerHeight length index (some rect) = ⟨.fin 0, .fin 0.85⟩ := by
  have hd : 0 < innerHeight * 0.12 - rect.top := by linarith
  simp only [PortfolioSection.cardState, hlast, decide_False, JSNum.mul_fin, JSNum.sub_fin,
    JSNum.le_fin, hh, zero_mul, JSNum.div, hd, hd.ne', htop.le]
  simp only [JSNum.one_eq, JSNum.zero_eq, JSNum.min, JSNum.le, JSNum.sub_fin, JSNum.mul_fin,
    JSNum.max_fin]
  norm_num [JSNum.sub_fin, JSNum.mul_fin, JSNum.max_fin]

/-- The card callback returns `{ opacity: 1, scale: 1 }` for the last index. -/
theorem PortfolioSection.cardState_last (innerHeight : ℚ) (length index : Nat)
    (card : Option DOMRect) (hlast : (index : Int) = (length : Int) - 1) :
    PortfolioSection.cardState innerHeight length index card = ⟨.fin 1, .fin 1⟩ := by
  cases card <;> simp [PortfolioSection.cardState, hlast, JSNum.one_eq]

/-- Title update when the title's height is zero and the card overlaps it. -/
theorem PortfolioSection.titleState_of_zero_height (st : FadeState) (cardRect titleRect : DOMRect)
    (hh : titleRect.height = 0) (ho : 0 < titleRect.bottom - cardRect.top) :
    PortfolioSection.titleState st (some cardRect) (some titleRect) = ⟨.fin 0, .fin 0.85⟩ := by
  simp only [PortfolioSection.titleState, JSNum.mul_fin, JSNum.sub_fin, hh, zero_mul, JSNum.div,
    ho, ho.ne']
  simp only [JSNum.one_eq, JSNum.zero_eq, JSNum.min, JSNum.le, JSNum.sub_fin, JSNum.mul_fin,
    JSNum.max_fin, JSNum.gt_fin, ho]
  norm_num [JSNum.sub_fin, JSNum.mul_fin, JSNum.max_fin]

/-! ## Card fade and title fade: the claims -/

/-- C1 (card-fade range).  In `PortfolioSection` and in `RealisationsPage`, for
every array of card references, every viewport height and every position `i`
that is not the last one and holds a card of height `h > 0`, the state that
`handleScroll` computes for position `i` has a finite opacity in `[0, 1]` and a
finite scale in `[0.85, 1]`. -/
theorem card_fade_range
    (hs : List (Option DOMRect) → Option DOMRect → ℚ → FadeState → FadeState × List FadeState)
    (hhs : hs ∈ [PortfolioSection.handleScroll, RealisationsPage.handleScroll])
    (cards : List (Option DOMRect)) (title : Option DOMRect) (innerHeight : ℚ)
    (travailsState : FadeState) (i : Nat) (rect : DOMRect)
    (hcard : cards[i]? = some (some rect)) (hlast : i ≠ cards.length - 1)
    (hh : 0 < rect.height) :
    ∃ s, (hs cards title innerHeight travailsState).2[i]? = some s ∧
      s.opacity.within 0 1 ∧ s.scale.within 0.85 1 := by
  have hhs' : hs = PortfolioSection.handleScroll := by
    simpa [RealisationsPage.handleScroll_eq] using hhs
  subst hhs'
  have hlen : i < cards.length := (List.getElem?_eq_some_iff.mp hcard).1
  have hlast' : (i : Int) ≠ (cards.length : Int) - 1 := by omega
  refine ⟨_, by rw [PortfolioSection.handleScroll_getElem?, hcard]; rfl, ?_⟩
  rw [PortfolioSection.cardState_of_height _ _ _ _ hlast' hh.ne']
  by_cases htop : rect.top ≤ innerHeight * 0.12
  · have hx : 0 ≤ (innerHeight * 0.12 - rect.top) / (rect.height * 0.5) :=
      div_nonneg (by linarith) (by linarith)
    simpa [htop, JSNum.within] using fade_bounds _ hx
  · simp only [htop, if_false, JSNum.one_eq, JSNum.within]
    norm_num

theorem card_fade_range_witness :
    ∃ s, (RealisationsPage.handleScroll [some ⟨2, 42, 40⟩, none] none 100 ⟨1, 1⟩).2[0]? = some s ∧
      s.opacity.within 0 1 ∧ s.scale.within 0.85 1 :=
  card_fade_range RealisationsPage.handleScroll (by simp) [some ⟨2, 42, 40⟩, none] none 100 ⟨1, 1⟩
    0 ⟨2, 42, 40⟩ rfl (by decide) (by norm_num)

/-- C2 (card fade is the clamped linear interpolation).  In both components,
for a position that is not the last one and holds a card of height `h > 0`,
writing `d = 0.12 * innerHeight - cardTop`, the state computed by
`handleScroll` is `(1, 1)` when `d < 0`, `(1 - 2d/h, 1 - 0.3 d/h)` when
`0 ≤ d ≤ h/2`, and `(0, 0.85)` when `d ≥ h/2`. -/
theorem card_fade_interpolation
    (hs : List (Option DOMRect) → Option DOMRect → ℚ → FadeState → FadeState × List FadeState)
    (hhs : hs ∈ [PortfolioSection.handleScroll, RealisationsPage.handleScroll])
    (cards : List (Option DOMRect)) (title : Option DOMRect) (innerHeight : ℚ)
    (travailsState : FadeState) (i : Nat) (rect : DOMRect)
    (hcard : cards[i]? = some (some rect)) (hlast : i ≠ cards.length - 1)
    (hh : 0 < rect.height) :
    (0.12 * innerHeight - rect.top < 0 →
      (hs cards title innerHeight travailsState).2[i]? = some ⟨.fin 1, .fin 1⟩) ∧
    (0 ≤ 0.12 * innerHeight - rect.top → 0.12 * innerHeight - rect.top ≤ rect.height / 2 →
      (hs cards title innerHeight travailsState).2[i]? =
        some ⟨.fin (1 - 2 * (0.12 * innerHeight - rect.top) / rect.height),
              .fin (1 - 0.3 * (0.12 * innerHeight - rect.top) / rect.height)⟩) ∧
    (rect.height / 2 ≤ 0.12 * innerHeight - rect.top →
      (hs cards title innerHeight travailsState).2[i]? = some ⟨.fin 0, .fin 0.85⟩) := by
  have hhs' : hs = PortfolioSection.handleScroll := by
    simpa [RealisationsPage.handleScroll_eq] using hhs
  subst hhs'
  have hlen : i < cards.length := (List.getElem?_eq_some_iff.mp hcard).1
  have hlast' : (i : Int) ≠ (cards.length : Int) - 1 := by omega
  have hget : (PortfolioSection.handleScroll cards title innerHeight travailsState).2[i]? =
      some (PortfolioSection.cardState innerHeight cards.length i (some rect)) := by
    rw [PortfolioSection.handleScroll_getElem?, hcard]; rfl
  rw [hget, PortfolioSection.cardState_of_height _ _ _ _ hlast' hh.ne']
  have hx : (innerHeight * 0.12 - rect.top) / (rect.height * 0.5) =
      2 * (0.12 * innerHeight - rect.top) / rect.height := by
    field_simp; ring
  refine ⟨fun hd => ?_, fun hd0 hd1 => ?_, fun hd => ?_⟩
  · have htop : ¬ rect.top ≤ innerHeight * 0.12 := by linarith
    simp [htop, JSNum.one_eq]
  · have htop : rect.top ≤ innerHeight * 0.12 := by linarith
    have h1 : (innerHeight * 0.12 - rect.top) / (rect.height * 0.5) ≤ 1 := by
      rw [hx, div_le_one hh]; linarith
    obtain ⟨ho, hsc⟩ := fade_linear _ h1
    rw [if_pos htop, ho, hsc, hx]
    congr 3
    ring
  · have htop : rect.top ≤ innerHeight * 0.12 := by linarith
    have h1 : 1 ≤ (innerHeight * 0.12 - rect.top) / (rect.height * 0.5) := by
      rw [hx, one_le_div hh]; linarith
    obtain ⟨ho, hsc⟩ := fade_full _ h1
    rw [if_pos htop, ho, hsc]

theorem card_fade_interpolation_witness :
    (PortfolioSection.handleScroll [some ⟨2, 42, 40⟩, none] none 100 ⟨1, 1⟩).2[0]? =
      some ⟨.fin (1 - 2 * (0.12 * 100 - 2) / 40), .fin (1 - 0.3 * (0.12 * 100 - 2) / 40)⟩ :=
  (card_fade_interpolation PortfolioSection.handleScroll (by simp) [some ⟨2, 42, 40⟩, none] none
    100 ⟨1, 1⟩ 0 ⟨2, 42, 40⟩ rfl (by decide) (by norm_num)).2.1 (by norm_num) (by norm_num)

/-- C3 (the last card never fades).  In both components, for every non-empty
array of card references (mounted or not), every title, viewport height and
card geometry, the state computed by `handleScroll` for index `length - 1` is
exactly opacity 1 and scale 1. -/
theorem last_card_never_fades
    (hs : List (Option DOMRect) → Option DOMRect → ℚ → FadeState → FadeState × List FadeState)
    (hhs : hs ∈ [PortfolioSection.handleScroll, RealisationsPage.handleScroll])
    (cards : List (Option DOMRect)) (title : Option DOMRect) (innerHeight : ℚ)
    (travailsState : FadeState) (hne : cards ≠ []) :
    (hs cards title innerHeight travailsState).2[cards.length - 1]? = some ⟨.fin 1, .fin 1⟩ := by
  have hhs' : hs = PortfolioSection.handleScroll := by
    simpa [RealisationsPage.handleScroll_eq] using hhs
  subst hhs'
  have hpos : 0 < cards.length := List.length_pos.mpr hne
  have hlt : cards.length - 1 < cards.length := by omega
  have hlast : ((cards.length - 1 : Nat) : Int) = (cards.length : Int) - 1 := by omega
  rw [PortfolioSection.handleScroll_getElem?, List.getElem?_eq_getElem hlt, Option.map_some']
  rw [PortfolioSection.cardState_last _ _ _ _ hlast]

theorem last_card_never_fades_witness :
    (PortfolioSection.handleScroll [some ⟨2, 42, 40⟩, some ⟨-500, -460, 40⟩] none 100 ⟨1, 1⟩).2[
      [some (⟨2, 42, 40⟩ : DOMRect), some ⟨-500, -460, 40⟩].length - 1]? = some ⟨.fin 1, .fin 1⟩ :=
  last_card_never_fades PortfolioSection.handleScroll (by simp)
    [some ⟨2, 42, 40⟩, some ⟨-500, -460, 40⟩] none 100 ⟨1, 1⟩ (by simp)

/-- C4 (title fade follows the first card).  In both components, when the
first card and the title are mounted and the title has height `t > 0`, with
`overlap = titleRect.bottom - firstCardRect.top`, `handleScroll` sets the title
state to `(1, 1)` when `overlap ≤ 0` and otherwise to `(1 - p, 1 - 0.15 p)` with
`p = min(1, overlap / (0.5 t))`; the state differs from `(1, 1)` exactly when
`overlap > 0`, and it is `(0, 0.85)` once `overlap ≥ t/2`. -/
theorem title_fade_follows_first_card
    (hs : List (Option DOMRect) → Option DOMRect → ℚ → FadeState → FadeState × List FadeState)
    (hhs : hs ∈ [PortfolioSection.handleScroll, RealisationsPage.handleScroll])
    (cards : List (Option DOMRect)) (innerHeight : ℚ) (travailsState : FadeState)
    (cardRect titleRect : DOMRect) (hfirst : cards.head? = some (some cardRect))
    (ht : 0 < titleRect.height) :
    (titleRect.bottom - cardRect.top ≤ 0 →
      (hs cards (some titleRect) innerHeight travailsState).1 = ⟨.fin 1, .fin 1⟩) ∧
    (0 < titleRect.bottom - cardRect.top →
      (hs cards (some titleRect) innerHeight travailsState).1 =
        ⟨.fin (1 - min 1 ((titleRect.bottom - cardRect.top) / (0.5 * titleRect.height))),
         .fin (1 - 0.15 * min 1 ((titleRect.bottom - cardRect.top) / (0.5 * titleRect.height)))⟩) ∧
    ((hs cards (some titleRect) innerHeight travailsState).1 ≠ ⟨.fin 1, .fin 1⟩ ↔
      0 < titleRect.bottom - cardRect.top) ∧
    (titleRect.height / 2 ≤ titleRect.bottom - cardRect.top →
      (hs cards (some titleRect) innerHeight travailsState).1 = ⟨.fin 0, .fin 0.85⟩) := by
  have hhs' : hs = PortfolioSection.handleScroll := by
    simpa [RealisationsPage.handleScroll_eq] using hhs
  subst hhs'
  have hval : (PortfolioSection.handleScroll cards (some titleRect) innerHeight travailsState).1 =
      PortfolioSection.titleState travailsState (some cardRect) (some titleRect) := by
    simp [PortfolioSection.handleScroll, hfirst]
  rw [hval, PortfolioSection.titleState_of_height _ _ _ ht.ne']
  have hc : titleRect.height * 0.5 = 0.5 * titleRect.height := mul_comm _ _
  have hpos : 0 < 0.5 * titleRect.height := by linarith
  have hlin : 0 < titleRect.bottom - cardRect.top →
      (⟨.fin (max 0 (1 - min 1 ((titleRect.bottom - cardRect.top) / (titleRect.height * 0.5)))),
        .fin (max 0.85
          (1 - min 1 ((titleRect.bottom - cardRect.top) / (titleRect.height * 0.5)) * 0.15))⟩ :
        FadeState) =
      ⟨.fin (1 - min 1 ((titleRect.bottom - cardRect.top) / (0.5 * titleRect.height))),
       .fin (1 - 0.15 * min 1 ((titleRect.bottom - cardRect.top) / (0.5 * titleRect.height)))⟩ := by
    intro ho
    have hm1 : min 1 ((titleRect.bottom - cardRect.top) / (titleRect.height * 0.5)) ≤ 1 :=
      min_le_left _ _
    rw [max_eq_right (by linarith), max_eq_right (by linarith), hc, mul_comm _ (0.15 : ℚ)]
  refine ⟨fun ho => ?_, fun ho => ?_, ⟨fun hne => ?_, fun ho => ?_⟩, fun ho => ?_⟩
  · simp [not_lt.mpr ho, JSNum.one_eq]
  · rw [if_pos ho, hlin ho]
  · by_contra hn
    exact hne (by simp [hn, JSNum.one_eq])
  · rw [if_pos ho, hlin ho]
    have hp : 0 < min 1 ((titleRect.bottom - cardRect.top) / (0.5 * titleRect.height)) :=
      lt_min (by norm_num) (div_pos ho hpos)
    intro heq
    have h1 := congrArg FadeState.opacity heq
    simp only [JSNum.fin.injEq] at h1
    linarith
  · have ho' : 0 < titleRect.bottom - cardRect.top := by linarith
    have h1 : 1 ≤ (titleRect.bottom - cardRect.top) / (titleRect.height * 0.5) := by
      rw [hc, one_le_div hpos]; linarith
    obtain ⟨hop, hsc⟩ := fade_full _ h1
    rw [if_pos ho', hop, hsc]

theorem title_fade_follows_first_card_witness :
    (RealisationsPage.handleScroll [some ⟨70, 110, 40⟩, none] (some ⟨50, 80, 30⟩) 100 ⟨1, 1⟩).1 =
      ⟨.fin (1 - min 1 ((80 - 70) / (0.5 * 30))),
       .fin (1 - 0.15 * min 1 ((80 - 70) / (0.5 * 30)))⟩ :=
  (title_fade_follows_first_card RealisationsPage.handleScroll (by simp)
    [some ⟨70, 110, 40⟩, none] 100 ⟨1, 1⟩ ⟨70, 110, 40⟩ ⟨50, 80, 30⟩ rfl (by norm_num)).2.1
    (by norm_num)

/-! ## Division by a zero height -/

/-- C10, counterexample.  A card of height 0 (not the last one) whose top is
exactly on the sticky line, `0.12 * 100 = 12`: the quotient is `0 / 0`, and both
the opacity and the scale computed by `handleScroll` are NaN, so neither lies
in its interval. -/
theorem card_fade_zero_height_nan :
    (PortfolioSection.handleScroll [some ⟨12, 12, 0⟩, none] none 100 ⟨1, 1⟩).2[0]? =
        some ⟨JSNum.nan, JSNum.nan⟩ ∧
      ¬ (JSNum.nan).within 0 1 ∧ ¬ (JSNum.nan).within 0.85 1 := by
  refine ⟨?_, fun h => h, fun h => h⟩
  rw [PortfolioSection.handleScroll_getElem?]
  simp only [List.getElem?_cons_zero, Option.map_some', List.length_cons, List.length_nil,
    PortfolioSection.cardState, JSNum.mul_fin, JSNum.sub_fin, JSNum.le_fin]
  norm_num [JSNum.div, JSNum.min, JSNum.max, JSNum.sub, JSNum.mul]

/-- C10, amended.  In both components, for every viewport height: every
mounted card of height `h ≥ 0`, except a card with `h = 0` whose top is exactly
`0.12 * innerHeight`, gets a finite opacity in `[0, 1]` and a finite scale in
`[0.85, 1]`; and when the first card and the title are mounted, the title of
height `t ≥ 0` (zero included) gets a finite opacity in `[0, 1]` and a finite
scale in `[0.85, 1]`. -/
theorem fade_well_defined
    (hs : List (Option DOMRect) → Option DOMRect → ℚ → FadeState → FadeState × List FadeState)
    (hhs : hs ∈ [PortfolioSection.handleScroll, RealisationsPage.handleScroll])
    (cards : List (Option DOMRect)) (innerHeight : ℚ) (travailsState : FadeState) :
    (∀ (title : Option DOMRect) (i : Nat) (rect : DOMRect), cards[i]? = some (some rect) →
      0 ≤ rect.height → ¬ (rect.height = 0 ∧ rect.top = innerHeight * 0.12) →
      ∃ s, (hs cards title innerHeight travailsState).2[i]? = some s ∧
        s.opacity.within 0 1 ∧ s.scale.within 0.85 1) ∧
    (∀ (cardRect titleRect : DOMRect), cards.head? = some (some cardRect) →
      0 ≤ titleRect.height →
      (hs cards (some titleRect) innerHeight travailsState).1.opacity.within 0 1 ∧
      (hs cards (some titleRect) innerHeight travailsState).1.scale.within 0.85 1) := by
  have hhs' : hs = PortfolioSection.handleScroll := by
    simpa [RealisationsPage.handleScroll_eq] using hhs
  subst hhs'
  have hshown : (JSNum.fin 1).within 0 1 ∧ (JSNum.fin 1).within 0.85 1 := by
    simp only [JSNum.within]; norm_num
  have hfull : (JSNum.fin 0).within 0 1 ∧ (JSNum.fin 0.85).within 0.85 1 := by
    simp only [JSNum.within]; norm_num
  constructor
  · intro title i rect hcard hh hex
    refine ⟨_, by rw [PortfolioSection.handleScroll_getElem?, hcard]; rfl, ?_⟩
    by_cases hlast : (i : Int) = (cards.length : Int) - 1
    · rw [PortfolioSection.cardState_last _ _ _ _ hlast]
      exact hshown
    · rcases hh.eq_or_lt with h0 | hpos
      · by_cases htop : rect.top < innerHeight * 0.12
        · rw [PortfolioSection.cardState_of_zero_height _ _ _ _ hlast h0.symm htop]
          exact hfull
        · have hgt : ¬ rect.top ≤ innerHeight * 0.12 := fun hle =>
            hex ⟨h0.symm, le_antisymm hle (not_lt.mp htop)⟩
          simpa [PortfolioSection.cardState, hlast, JSNum.mul_fin, JSNum.le_fin, hgt] using hshown
      · rw [PortfolioSection.cardState_of_height _ _ _ _ hlast hpos.ne']
        by_cases htop : rect.top ≤ innerHeight * 0.12
        · have hx : 0 ≤ (innerHeight * 0.12 - rect.top) / (rect.height * 0.5) :=
            div_nonneg (by linarith) (by linarith)
          simpa [htop, JSNum.within] using fade_bounds _ hx
        · simpa [htop, JSNum.one_eq] using hshown
  · intro cardRect titleRect hfirst ht
    have hval : (PortfolioSection.handleScroll cards (some titleRect) innerHeight travailsState).1 =
        PortfolioSection.titleState travailsState (some cardRect) (some titleRect) := by
      simp [PortfolioSection.handleScroll, hfirst]
    rw [hval]
    by_cases ho : 0 < titleRect.bottom - cardRect.top
    · rcases ht.eq_or_lt with h0 | hpos
      · rw [PortfolioSection.titleState_of_zero_height _ _ _ h0.symm ho]
        exact hfull
      · rw [PortfolioSection.titleState_of_height _ _ _ hpos.ne', if_pos ho]
        have hx : 0 ≤ (titleRect.bottom - cardRect.top) / (titleRect.height * 0.5) :=
          div_nonneg ho.le (by linarith)
        simpa [JSNum.within] using fade_bounds _ hx
    · have hfalse : JSNum.gt (.fin (titleRect.bottom - cardRect.top)) 0 = false := by
        simp [JSNum.zero_eq, JSNum.gt_fin, ho]
      simpa [PortfolioSection.titleState, JSNum.sub_fin, hfalse, JSNum.one_eq] using hshown

theorem fade_well_defined_witness :
    (∃ s, (PortfolioSection.handleScroll [some ⟨2, 2, 0⟩, none] none 100 ⟨1, 1⟩).2[0]? = some s ∧
        s.opacity.within 0 1 ∧ s.scale.within 0.85 1) ∧
      (PortfolioSection.handleScroll [some ⟨70, 110, 40⟩, none] (some ⟨80, 80, 0⟩) 100
        ⟨1, 1⟩).1.opacity.within 0 1 :=
  ⟨(fade_well_defined PortfolioSection.handleScroll (by simp) [some ⟨2, 2, 0⟩, none] 100 ⟨1, 1⟩).1
      none 0 ⟨2, 2, 0⟩ rfl (by norm_num) (by norm_num),
   ((fade_well_defined PortfolioSection.handleScroll (by simp) [some ⟨70, 110, 40⟩, none] 100
      ⟨1, 1⟩).2 ⟨70, 110, 40⟩ ⟨80, 80, 0⟩ rfl (by norm_num)).1⟩

/-! ## Gallery filter -/

/-- C5 (gallery filter).  For every filter id, `filteredProjects` is
`allProjects` when the id is `'all'`; otherwise it is the sub-list of
`allProjects`, in the original order, of exactly the projects whose category is
the id: every listed project has that category and no project of
`allProjects` with that category is omitted. -/
theorem filteredProjects_spec (activeFilter : String) :
    (activeFilter = "all" →
      RealisationsPage.filteredProjects activeFilter = RealisationsPage.allProjects) ∧
    (activeFilter ≠ "all" →
      List.Sublist (RealisationsPage.filteredProjects activeFilter) RealisationsPage.allProjects ∧
      (∀ p, p ∈ RealisationsPage.filteredProjects activeFilter ↔
        p ∈ RealisationsPage.allProjects ∧ p.category = activeFilter) ∧
      RealisationsPage.filteredProjects activeFilter =
        RealisationsPage.allProjects.filter (fun p => decide (p.category = activeFilter))) := by
  constructor
  · intro h
    simp [RealisationsPage.filteredProjects, h]
  · intro h
    have heq : RealisationsPage.filteredProjects activeFilter =
        RealisationsPage.allProjects.filter (fun p => decide (p.category = activeFilter)) := by
      simp [RealisationsPage.filteredProjects, h]
    refine ⟨?_, ?_, heq⟩
    · rw [heq]
      exact List.filter_sublist _
    · intro p
      rw [heq, List.mem_filter]
      simp

theorem filteredProjects_spec_witness :
    List.Sublist (RealisationsPage.filteredProjects "zinc") RealisationsPage.allProjects ∧
      (∀ p, p ∈ RealisationsPage.filteredProjects "zinc" ↔
        p ∈ RealisationsPage.allProjects ∧ p.category = "zinc") ∧
      RealisationsPage.filteredProjects "zinc" =
        RealisationsPage.allProjects.filter (fun p => decide (p.category = "zinc")) :=
  (filteredProjects_spec "zinc").2 (by decide)

/-! ## Intersection-triggered reveal -/

/-- Once `isVisible` is true, no delivery of the observer makes it false. -/
theorem reveal_foldl_true (cb : Bool → List ObserverEntry → Bool)
    (hcb : ∀ entries, cb true entries = true) (calls : List (List ObserverEntry)) :
    calls.foldl cb true = true := by
  induction calls with
  | nil => rfl
  | cons c cs ih => rw [List.foldl_cons, hcb, ih]

/-- C6 (the reveal is one-shot).  In `ServicesSection`, `ServicesCarousel`,
`TestimonialsSection` and `CTASection`: `isVisible` starts false; it is still
false after any deliveries none of whose entries is intersecting; it is true
right after the first delivery whose entry is intersecting; and after every
further sequence of deliveries, intersecting or not, it is still true. -/
theorem reveal_one_shot (r : Reveal)
    (hr : r ∈ [ServicesSection.reveal, ServicesCarousel.reveal, TestimonialsSection.reveal,
      CTASection.reveal]) :
    r.isVisible₀ = false ∧
    (∀ before, (∀ c ∈ before, entryIntersecting c = false) → r.after before = false) ∧
    (∀ before first, (∀ c ∈ before, entryIntersecting c = false) →
      entryIntersecting first = true → r.after (before ++ [first]) = true) ∧
    (∀ before later, r.after before = true → r.after (before ++ later) = true) := by
  have hr' : r = ServicesSection.reveal := by
    simp only [List.mem_cons, List.mem_singleton, List.not_mem_nil, or_false] at hr
    rcases hr with h | h | h | h <;> exact h
  subst hr'
  have htrue : ∀ entries, ServicesSection.reveal.callback true entries = true := by
    intro entries
    cases entries <;> simp [ServicesSection.reveal]
  have hquiet : ∀ before : List (List ObserverEntry),
      (∀ c ∈ before, entryIntersecting c = false) →
      ServicesSection.reveal.after before = false := by
    intro before
    induction before using List.reverseRecOn with
    | nil => intro _; rfl
    | append_singleton cs c ih =>
      intro h
      have hcs := ih (fun x hx => h x (by simp [hx]))
      have hc := h c (by simp)
      unfold Reveal.after at hcs ⊢
      rw [List.foldl_append, hcs]
      cases c with
      | nil => rfl
      | cons e es =>
        simp only [entryIntersecting] at hc
        simp [ServicesSection.reveal, hc]
  refine ⟨rfl, hquiet, ?_, ?_⟩
  · intro before first hb hf
    have hcs := hquiet before hb
    unfold Reveal.after at hcs ⊢
    rw [List.foldl_append, hcs]
    cases first with
    | nil => simp [entryIntersecting] at hf
    | cons e es =>
      simp only [entryIntersecting] at hf
      simp [ServicesSection.reveal, hf]
  · intro before later hb
    unfold Reveal.after at hb ⊢
    rw [List.foldl_append, hb]
    exact reveal_foldl_true _ htrue later

theorem reveal_one_shot_witness :
    CTASection.reveal.after ([[⟨false⟩]] ++ [[⟨true⟩]]) = true ∧
      CTASection.reveal.after (([[⟨false⟩]] ++ [[⟨true⟩]]) ++ [[⟨false⟩], [⟨false⟩]]) = true :=
  ⟨(reveal_one_shot CTASection.reveal (by simp)).2.2.1 [[ObserverEntry.mk false]]
      [ObserverEntry.mk true] (by decide) rfl,
   (reveal_one_shot CTASection.reveal (by simp)).2.2.2
      ([[ObserverEntry.mk false]] ++ [[ObserverEntry.mk true]])
      [[ObserverEntry.mk false], [ObserverEntry.mk false]] (by decide)⟩

/-! ## Auto-scroll of the testimonials -/

namespace TestimonialsSection

theorem testimonials_length : (testimonials.length : Int) = 3 := rfl

/-- What one run of `autoScroll` does when the user has not interacted. -/
theorem autoScroll_of_idle (card : Option Nat) (s : AutoScroll) (hu : s.userInteracted = false) :
    autoScroll card s =
      { s with
        isAutoScrolling := true
        currentIndex := Int.tmod (s.currentIndex + 1) (testimonials.length : Int)
        scrolled := s.scrolled ++
          [Int.tmod (s.currentIndex + 1) (testimonials.length : Int) * getCardWidth card]
        nextHandle := s.nextHandle + 1
        timers := s.timers ++ [(s.nextHandle, TimerKind.resetFlag)] } := by
  simp [autoScroll, hu, setTimer]

/-- A run of `autoScroll` returns at once when the user has interacted. -/
theorem autoScroll_of_interacted (card : Option Nat) (s : AutoScroll)
    (hu : s.userInteracted = true) : autoScroll card s = s := by
  simp [autoScroll, hu]

/-- The index after consecutive runs of `autoScroll` from a non-negative index. -/
theorem autoScrollRuns_currentIndex (cards : List (Option Nat)) :
    ∀ s : AutoScroll, s.userInteracted = false → 0 ≤ s.currentIndex →
      (autoScrollRuns cards s).currentIndex =
        if cards = [] then s.currentIndex else (s.currentIndex + cards.length) % 3 := by
  induction cards with
  | nil => intro s _ _; rfl
  | cons c cs ih =>
    intro s hu h0
    have hstep : (autoScroll c s).currentIndex = (s.currentIndex + 1) % 3 := by
      rw [autoScroll_of_idle c s hu, testimonials_length]
      exact Int.tmod_eq_emod (by omega) (by omega)
    have hu' : (autoScroll c s).userInteracted = false := by
      rw [autoScroll_of_idle c s hu]; exact hu
    have h := ih (autoScroll c s) hu' (by rw [hstep]; omega)
    show (autoScrollRuns cs (autoScroll c s)).currentIndex = _
    rw [h, hstep]
    by_cases hcs : cs = []
    · subst hcs; simp
    · simp only [hcs, if_false, List.length_cons, reduceCtorEq]
      push_cast
      omega

theorem handleGone_setTimer (h : Nat) (kind : TimerKind) (s : AutoScroll)
    (hg : handleGone h s) : handleGone h (setTimer kind s).2 := by
  obtain ⟨hlt, hno⟩ := hg
  refine ⟨Nat.lt_succ_of_lt hlt, fun k hk => ?_⟩
  simp only [setTimer, List.mem_append, List.mem_singleton, Prod.mk.injEq] at hk
  rcases hk with hk | ⟨hk, _⟩
  · exact hno k hk
  · omega

theorem handleGone_clearTimer (h h' : Nat) (s : AutoScroll)
    (hg : handleGone h s) : handleGone h (clearTimer h' s) := by
  obtain ⟨hlt, hno⟩ := hg
  refine ⟨hlt, fun k hk => ?_⟩
  simp only [clearTimer, List.mem_filter] at hk
  exact hno k hk.1

/-- Fields other than the timer table and the handle counter do not matter. -/
theorem handleGone_congr (h : Nat) (s t : AutoScroll) (hn : t.nextHandle = s.nextHandle)
    (ht : t.timers = s.timers) (hg : handleGone h s) : handleGone h t := by
  unfold handleGone at hg ⊢
  rw [hn, ht]
  exact hg

theorem handleGone_autoScroll (h : Nat) (card : Option Nat) (s : AutoScroll)
    (hg : handleGone h s) : handleGone h (autoScroll card s) := by
  unfold autoScroll
  split
  · exact hg
  · exact handleGone_setTimer h _ _ (handleGone_congr h s _ rfl rfl hg)

theorem handleTouchStart_nextHandle (s : AutoScroll) :
    (handleTouchStart s).nextHandle = s.nextHandle := by
  simp only [handleTouchStart, clearTimer]
  cases truthy s.autoScrollRef <;> cases truthy s.restartTimeout <;> rfl

theorem handleTouchStart_timers (s : AutoScroll) (t : Nat × TimerKind)
    (ht : t ∈ (handleTouchStart s).timers) : t ∈ s.timers := by
  simp only [handleTouchStart, clearTimer] at ht
  cases h1 : truthy s.autoScrollRef <;> cases h2 : truthy s.restartTimeout <;>
    simp only [h1, h2, List.mem_filter] at ht
  · exact ht
  · exact ht.1
  · exact ht.1
  · exact ht.1.1

theorem handleGone_handleTouchStart (h : Nat) (s : AutoScroll)
    (hg : handleGone h s) : handleGone h (handleTouchStart s) := by
  refine ⟨by rw [handleTouchStart_nextHandle]; exact hg.1, fun k hk => ?_⟩
  exact hg.2 k (handleTouchStart_timers s _ hk)

theorem cleanup_nextHandle (s : AutoScroll) : (cleanup s).nextHandle = s.nextHandle := by
  simp only [cleanup, clearTimer]
  cases truthy s.startDelayTimeout <;> cases truthy s.autoScrollRef <;>
    cases truthy s.restartTimeout <;> rfl

theorem cleanup_timers (s : AutoScroll) (t : Nat × TimerKind)
    (ht : t ∈ (cleanup s).timers) : t ∈ s.timers := by
  simp only [cleanup, clearTimer] at ht
  cases h0 : truthy s.startDelayTimeout <;> cases h1 : truthy s.autoScrollRef <;>
    cases h2 : truthy s.restartTimeout <;>
    simp only [h0, h1, h2, List.mem_filter] at ht <;>
    first
    | exact ht
    | exact ht.1
    | exact ht.1.1
    | exact ht.1.1.1

theorem handleGone_step (h : Nat) (s : AutoScroll) (e : Event)
    (hg : handleGone h s) : handleGone h (step s e) := by
  cases e with
  | touchStart =>
    simp only [step]
    split
    · exact handleGone_handleTouchStart h s hg
    · exact hg
  | touchEnd =>
    simp only [step]
    split
    · exact handleGone_congr h _ _ rfl rfl (handleGone_setTimer h .restart s hg)
    · exact hg
  | timer handle card scrollLeft =>
    simp only [step]
    split
    · exact hg
    · exact handleGone_autoScroll h card s hg
    · exact handleGone_congr h _ _ rfl rfl
        (handleGone_setTimer h .interval _ (handleGone_clearTimer h handle s hg))
    · exact handleGone_congr h _ _ rfl rfl
        (handleGone_setTimer h .interval _
          (handleGone_congr h _ _ rfl rfl (handleGone_clearTimer h handle s hg)))
    · exact handleGone_congr h _ _ rfl rfl (handleGone_clearTimer h handle s hg)
  | cleanup =>
    refine ⟨?_, fun k hk => hg.2 k (cleanup_timers s _ hk)⟩
    show (cleanup s).nextHandle > h
    rw [cleanup_nextHandle]
    exact hg.1

theorem handleGone_run (h : Nat) (events : List Event) :
    ∀ s, handleGone h s → handleGone h (run s events) := by
  induction events with
  | nil => intro s hg; exact hg
  | cons e es ih => intro s hg; exact ih _ (handleGone_step h s e hg)

theorem handleTouchStart_autoScrollRef (s : AutoScroll) :
    (handleTouchStart s).autoScrollRef = s.autoScrollRef ∨
      (handleTouchStart s).autoScrollRef = none := by
  simp only [handleTouchStart, clearTimer]
  cases truthy s.autoScrollRef <;> cases truthy s.restartTimeout <;> simp

theorem cleanup_autoScrollRef (s : AutoScroll) :
    (cleanup s).autoScrollRef = s.autoScrollRef := by
  simp only [cleanup, clearTimer]
  cases truthy s.startDelayTimeout <;> cases truthy s.autoScrollRef <;>
    cases truthy s.restartTimeout <;> rfl

theorem autoScroll_autoScrollRef (card : Option Nat) (s : AutoScroll) :
    (autoScroll card s).autoScrollRef = s.autoScrollRef ∧
      s.nextHandle ≤ (autoScroll card s).nextHandle := by
  unfold autoScroll
  split
  · exact ⟨rfl, le_rfl⟩
  · exact ⟨rfl, Nat.le_succ _⟩

/-- How one event changes `autoScrollRef` and the handle counter. -/
theorem step_autoScrollRef (s : AutoScroll) (e : Event) :
    s.nextHandle ≤ (step s e).nextHandle ∧
      ((step s e).autoScrollRef = s.autoScrollRef ∨ (step s e).autoScrollRef = none ∨
        ((step s e).autoScrollRef = some s.nextHandle ∧
          s.nextHandle < (step s e).nextHandle)) := by
  cases e with
  | touchStart =>
    simp only [step]
    split
    · refine ⟨(handleTouchStart_nextHandle s).ge, ?_⟩
      rcases handleTouchStart_autoScrollRef s with h | h
      · exact Or.inl h
      · exact Or.inr (Or.inl h)
    · exact ⟨le_rfl, Or.inl rfl⟩
  | touchEnd =>
    simp only [step]
    split
    · exact ⟨Nat.le_succ _, Or.inl rfl⟩
    · exact ⟨le_rfl, Or.inl rfl⟩
  | timer handle card scrollLeft =>
    simp only [step]
    split
    · exact ⟨le_rfl, Or.inl rfl⟩
    · exact ⟨(autoScroll_autoScrollRef card s).2, Or.inl (autoScroll_autoScrollRef card s).1⟩
    · exact ⟨Nat.le_succ _, Or.inr (Or.inr ⟨rfl, Nat.lt_succ_self _⟩)⟩
    · exact ⟨Nat.le_succ _, Or.inr (Or.inr ⟨rfl, Nat.lt_succ_self _⟩)⟩
    · exact ⟨le_rfl, Or.inl rfl⟩
  | cleanup =>
    exact ⟨(cleanup_nextHandle s).ge, Or.inl (cleanup_autoScrollRef s)⟩

theorem refIssued_step (s : AutoScroll) (e : Event) (hs : refIssued s) :
    refIssued (step s e) := by
  obtain ⟨h1, href⟩ := hs
  obtain ⟨hle, hcases⟩ := step_autoScrollRef s e
  refine ⟨le_trans h1 hle, fun h hh => ?_⟩
  rcases hcases with hc | hc | ⟨hc, hlt⟩
  · rw [hc] at hh
    have := href h hh
    omega
  · rw [hc] at hh
    cases hh
  · rw [hc] at hh
    cases hh
    omega

theorem refIssued_init : refIssued init := by
  refine ⟨by decide, fun h hh => ?_⟩
  cases hh

theorem refIssued_run (events : List Event) :
    ∀ s, refIssued s → refIssued (run s events) := by
  induction events with
  | nil => intro s hs; exact hs
  | cons e es ih => intro s hs; exact ih _ (refIssued_step s e hs)

theorem handleTouchStart_userInteracted (s : AutoScroll) :
    (handleTouchStart s).userInteracted = true := by
  simp only [handleTouchStart, clearTimer]
  cases truthy s.autoScrollRef <;> cases truthy s.restartTimeout <;> rfl

theorem cleanup_userInteracted (s : AutoScroll) :
    (cleanup s).userInteracted = s.userInteracted := by
  simp only [cleanup, clearTimer]
  cases truthy s.startDelayTimeout <;> cases truthy s.autoScrollRef <;>
    cases truthy s.restartTimeout <;> rfl

/-- An interval coming due runs `autoScroll`. -/
theorem step_interval (s : AutoScroll) (handle : Nat) (card : Option Nat) (scrollLeft : ℚ)
    (hk : s.timers.lookup handle = some .interval) :
    step s (.timer handle card scrollLeft) = autoScroll card s := by
  simp only [step, hk]

/-- Only a restart timer coming due resets `userInteracted`. -/
theorem step_userInteracted (s : AutoScroll) (e : Event) (hu : s.userInteracted = true)
    (hr : firesRestart s e = false) : (step s e).userInteracted = true := by
  cases e with
  | touchStart =>
    simp only [step]
    split
    · exact handleTouchStart_userInteracted s
    · exact hu
  | touchEnd =>
    simp only [step]
    split
    · exact hu
    · exact hu
  | timer handle card scrollLeft =>
    simp only [firesRestart, decide_eq_false_iff_not] at hr
    simp only [step]
    split
    · exact hu
    · rw [autoScroll_of_interacted card s hu]; exact hu
    · exact hu
    · next heq => exact absurd heq hr
    · exact hu
  | cleanup =>
    exact (cleanup_userInteracted s).trans hu

theorem run_userInteracted (events : List Event) :
    ∀ s, s.userInteracted = true → noRestartFires s events = true →
      (run s events).userInteracted = true := by
  induction events with
  | nil => intro s hu _; exact hu
  | cons e es ih =>
    intro s hu hq
    simp only [noRestartFires, Bool.and_eq_true, Bool.not_eq_true'] at hq
    exact ih _ (step_userInteracted s e hu hq.1) hq.2

/-- Only the start delay and a restart timer put a handle in `autoScrollRef`. -/
theorem step_autoScrollRef_none (s : AutoScroll) (e : Event) (hn : s.autoScrollRef = none)
    (hr : firesRestart s e = false) (hd : firesStartDelay s e = false) :
    (step s e).autoScrollRef = none := by
  cases e with
  | touchStart =>
    simp only [step]
    split
    · rcases handleTouchStart_autoScrollRef s with h | h
      · exact h.trans hn
      · exact h
    · exact hn
  | touchEnd =>
    simp only [step]
    split
    · exact hn
    · exact hn
  | timer handle card scrollLeft =>
    simp only [firesRestart, decide_eq_false_iff_not] at hr
    simp only [firesStartDelay, decide_eq_false_iff_not] at hd
    simp only [step]
    split
    · exact hn
    · exact (autoScroll_autoScrollRef card s).1.trans hn
    · next heq => exact absurd heq hd
    · next heq => exact absurd heq hr
    · exact hn
  | cleanup =>
    exact (cleanup_autoScrollRef s).trans hn

theorem run_autoScrollRef_none (events : List Event) :
    ∀ s, s.autoScrollRef = none → noRestartFires s events = true →
      noStartDelayFires s events = true → (run s events).autoScrollRef = none := by
  induction events with
  | nil => intro s hn _ _; exact hn
  | cons e es ih =>
    intro s hn hq hd
    simp only [noRestartFires, Bool.and_eq_true, Bool.not_eq_true'] at hq
    simp only [noStartDelayFires, Bool.and_eq_true, Bool.not_eq_true'] at hd
    exact ih _ (step_autoScrollRef_none s e hn hq.1 hd.1) hq.2 hd.2

/-- The handler `handleTouchStart` clears the interval held in `autoScrollRef`. -/
theorem handleTouchStart_clears (s : AutoScroll) (hs : refIssued s) :
    (handleTouchStart s).autoScrollRef = none ∧
      ∀ h, s.autoScrollRef = some h → handleGone h (handleTouchStart s) := by
  cases href : s.autoScrollRef with
  | none =>
    refine ⟨?_, fun h hh => by cases hh⟩
    have htr : truthy (none : Option Nat) = none := rfl
    simp only [handleTouchStart, clearTimer, href, htr]
    cases truthy s.restartTimeout <;> rfl
  | some h0 =>
    obtain ⟨hpos, hlt⟩ := hs.2 h0 href
    have htr : truthy (some h0) = some h0 := by
      simp only [truthy]
      rw [if_neg (by omega)]
    refine ⟨?_, fun h hh => ?_⟩
    · simp only [handleTouchStart, clearTimer, href, htr]
      cases truthy s.restartTimeout <;> rfl
    · cases hh
      refine ⟨by rw [handleTouchStart_nextHandle]; exact hlt, fun k hk => ?_⟩
      simp only [handleTouchStart, clearTimer, href, htr] at hk
      cases h2 : truthy s.restartTimeout <;> simp only [h2, List.mem_filter] at hk
      · simpa using hk.2
      · simpa using hk.1.2

end TestimonialsSection

/-- C7 (auto-advancing carousel).  Whenever `autoScroll` runs with
`userInteracted` false it sets `currentIndex` to
`(currentIndex + 1) % testimonials.length` and calls `scrollTo` once, with
`left` equal to the new index times the card width.  Hence from index 0 the
index after `n` runs is `n mod testimonials.length` (1, 2, 0, 1, ...), and from
every in-range index `testimonials.length` consecutive runs return to it. -/
theorem autoScroll_advances (s : TestimonialsSection.AutoScroll)
    (hu : s.userInteracted = false) :
    (∀ card,
      (TestimonialsSection.autoScroll card s).currentIndex =
        Int.tmod (s.currentIndex + 1) (TestimonialsSection.testimonials.length : Int) ∧
      (TestimonialsSection.autoScroll card s).scrolled = s.scrolled ++
        [(TestimonialsSection.autoScroll card s).currentIndex *
          TestimonialsSection.getCardWidth card]) ∧
    (s.currentIndex = 0 → ∀ cards,
      (TestimonialsSection.autoScrollRuns cards s).currentIndex =
        ((cards.length % TestimonialsSection.testimonials.length : Nat) : Int)) ∧
    (0 ≤ s.currentIndex → s.currentIndex < TestimonialsSection.testimonials.length →
      ∀ cards, cards.length = TestimonialsSection.testimonials.length →
        (TestimonialsSection.autoScrollRuns cards s).currentIndex = s.currentIndex) := by
  refine ⟨fun card => ?_, fun h0 cards => ?_, fun h0 h1 cards hlen => ?_⟩
  · rw [TestimonialsSection.autoScroll_of_idle card s hu]
    exact ⟨rfl, rfl⟩
  · rw [TestimonialsSection.autoScrollRuns_currentIndex cards s hu (by omega), h0]
    have h3 : TestimonialsSection.testimonials.length = 3 := rfl
    rw [h3]
    by_cases hc : cards = []
    · subst hc; rfl
    · simp only [hc, if_false]
      push_cast
      omega
  · rw [TestimonialsSection.autoScrollRuns_currentIndex cards s hu h0]
    have h3 : TestimonialsSection.testimonials.length = 3 := rfl
    rw [h3] at hlen h1
    have hc : cards ≠ [] := by
      intro h; rw [h] at hlen; simp at hlen
    simp only [hc, if_false, hlen]
    push_cast at h1 ⊢
    omega

theorem autoScroll_advances_witness :
    (TestimonialsSection.autoScrollRuns [none, some 300, none, none]
        TestimonialsSection.init).currentIndex =
      (([none, some 300, none, none] : List (Option Nat)).length %
        TestimonialsSection.testimonials.length : Nat) :=
  (autoScroll_advances TestimonialsSection.init rfl).2.1 rfl [none, some 300, none, none]

/-- C8, counterexample.  A touchstart before the start delay has elapsed,
then the start delay (handle 1) comes due.  No restart timer has come due and
`userInteracted` is still true, yet `autoScrollRef` holds handle 2 and that
interval is live in the timer table: during the pause the interval held in
`autoScrollRef` is not cleared. -/
theorem touch_then_start_delay_holds_interval :
    (TestimonialsSection.run TestimonialsSection.init []).listening = true ∧
      TestimonialsSection.noRestartFires
        (TestimonialsSection.step (TestimonialsSection.run TestimonialsSection.init [])
          .touchStart) [.timer 1 none 0] = true ∧
      (TestimonialsSection.run
        (TestimonialsSection.step (TestimonialsSection.run TestimonialsSection.init [])
          .touchStart) [.timer 1 none 0]).userInteracted = true ∧
      (TestimonialsSection.run
        (TestimonialsSection.step (TestimonialsSection.run TestimonialsSection.init [])
          .touchStart) [.timer 1 none 0]).autoScrollRef = some 2 ∧
      (TestimonialsSection.run
        (TestimonialsSection.step (TestimonialsSection.run TestimonialsSection.init [])
          .touchStart) [.timer 1 none 0]).timers.lookup 2 = some .interval := by
  refine ⟨by decide, by decide, by decide, by decide, by decide⟩

/-- C8, amended (touch pauses auto-scroll).  For every sequence of events
`before` after which the touch listeners are attached, and every sequence
`later` following a touchstart during which no restart timer comes due: the
touchstart leaves `autoScrollRef` null, and the interval it held at the
touchstart is cleared and stays out of the timer table; `autoScrollRef` is
still null after `later` when the start delay has not come due in it;
`userInteracted` stays true; and every invocation of `autoScroll`, direct or by
an interval coming due, leaves the whole state as it was, so `currentIndex` is
unchanged and no `scrollTo` is issued. -/
theorem touch_pauses_autoScroll (before later : List TestimonialsSection.Event)
    (hl : (TestimonialsSection.run TestimonialsSection.init before).listening = true)
    (hq : TestimonialsSection.noRestartFires
      (TestimonialsSection.step (TestimonialsSection.run TestimonialsSection.init before)
        .touchStart) later = true) :
    (TestimonialsSection.step (TestimonialsSection.run TestimonialsSection.init before)
        .touchStart).autoScrollRef = none ∧
    (∀ h, (TestimonialsSection.run TestimonialsSection.init before).autoScrollRef = some h →
      ∀ k, (h, k) ∉ (TestimonialsSection.run
        (TestimonialsSection.step (TestimonialsSection.run TestimonialsSection.init before)
          .touchStart) later).timers) ∧
    (TestimonialsSection.noStartDelayFires
        (TestimonialsSection.step (TestimonialsSection.run TestimonialsSection.init before)
          .touchStart) later = true →
      (TestimonialsSection.run
        (TestimonialsSection.step (TestimonialsSection.run TestimonialsSection.init before)
          .touchStart) later).autoScrollRef = none) ∧
    (TestimonialsSection.run
      (TestimonialsSection.step (TestimonialsSection.run TestimonialsSection.init before)
        .touchStart) later).userInteracted = true ∧
    (∀ card s, s = TestimonialsSection.run
        (TestimonialsSection.step (TestimonialsSection.run TestimonialsSection.init before)
          .touchStart) later →
      TestimonialsSection.autoScroll card s = s ∧
      (TestimonialsSection.autoScroll card s).currentIndex = s.currentIndex ∧
      (TestimonialsSection.autoScroll card s).scrolled = s.scrolled) ∧
    (∀ handle card scrollLeft s, s = TestimonialsSection.run
        (TestimonialsSection.step (TestimonialsSection.run TestimonialsSection.init before)
          .touchStart) later →
      s.timers.lookup handle = some .interval →
      TestimonialsSection.step s (.timer handle card scrollLeft) = s) := by
  have hinv := TestimonialsSection.refIssued_run before _ TestimonialsSection.refIssued_init
  have hstep : TestimonialsSection.step (TestimonialsSection.run TestimonialsSection.init before)
      .touchStart =
      TestimonialsSection.handleTouchStart
        (TestimonialsSection.run TestimonialsSection.init before) := by
    simp [TestimonialsSection.step, hl]
  obtain ⟨hnone, hgone⟩ := TestimonialsSection.handleTouchStart_clears _ hinv
  have hu := TestimonialsSection.run_userInteracted later _
    (by rw [hstep]; exact TestimonialsSection.handleTouchStart_userInteracted _) hq
  refine ⟨by rw [hstep]; exact hnone, fun h hh k => ?_, fun hd => ?_, hu, fun card s hs => ?_,
    fun handle card scrollLeft s hs hlook => ?_⟩
  · have hg := TestimonialsSection.handleGone_run h later
      (TestimonialsSection.step (TestimonialsSection.run TestimonialsSection.init before)
        .touchStart) (by rw [hstep]; exact hgone h hh)
    exact hg.2 k
  · exact TestimonialsSection.run_autoScrollRef_none later _ (by rw [hstep]; exact hnone) hq hd
  · subst hs
    have heq := TestimonialsSection.autoScroll_of_interacted card _ hu
    exact ⟨heq, by rw [heq], by rw [heq]⟩
  · subst hs
    rw [TestimonialsSection.step_interval _ handle card scrollLeft hlook]
    exact TestimonialsSection.autoScroll_of_interacted card _ hu

theorem touch_pauses_autoScroll_witness :
    (TestimonialsSection.run
      (TestimonialsSection.step
        (TestimonialsSection.run TestimonialsSection.init [.timer 1 none 0, .timer 2 none 0])
        .touchStart)
      [.touchEnd, .timer 2 (some 300) 0]).userInteracted = true :=
  (touch_pauses_autoScroll [.timer 1 none 0, .timer 2 none 0] [.touchEnd, .timer 2 (some 300) 0]
    (by decide) (by decide)).2.2.2.1

/-- C9, evaluation at the failing input.  Two fingers go down and are lifted
one after the other, then a finger goes down again.  After that last
touchstart the restart timer of the first touchend (handle 2) is still in the
table although `userInteracted` is true; when it comes due it resets
`userInteracted` to false and starts a new interval (handle 4). -/
theorem stale_restart_survives_touchStart :
    (TestimonialsSection.run TestimonialsSection.init
        [.touchStart, .touchStart, .touchEnd, .touchEnd, .touchStart]).userInteracted = true ∧
      (TestimonialsSection.run TestimonialsSection.init
        [.touchStart, .touchStart, .touchEnd, .touchEnd, .touchStart]).timers.lookup 2 =
          some .restart ∧
      (TestimonialsSection.run TestimonialsSection.init
        [.touchStart, .touchStart, .touchEnd, .touchEnd, .touchStart,
          .timer 2 none 0]).userInteracted = false ∧
      (TestimonialsSection.run TestimonialsSection.init
        [.touchStart, .touchStart, .touchEnd, .touchEnd, .touchStart,
          .timer 2 none 0]).autoScrollRef = some 4 ∧
      (TestimonialsSection.run TestimonialsSection.init
        [.touchStart, .touchStart, .touchEnd, .touchEnd, .touchStart,
          .timer 2 none 0]).timers.lookup 4 = some .interval := by
  refine ⟨by decide, by decide, by decide, by decide, by decide⟩

/-! ## Floating menu -/

/-- C11, evaluation at the failing input.  On the home page (`pathname` is
`/`, the document holds the ids of `HomePage`) the menu items Services and
Avis close the menu and query `#services` and `#avis`, but no element of the
home page has either id, so `scrollIntoView` is not called; only Contact
scrolls, to the section with id `contact`. -/
theorem menu_hash_targets_missing :
    (⟨"Services", none, some "/#services", false⟩ : FloatingMenu.MenuItem) ∈
        FloatingMenu.menuItems ∧
      FloatingMenu.handleClick "/" HomePage.elementIds ⟨"Services", none, some "/#services", false⟩ =
        ⟨false, some "#services", none, none, false⟩ ∧
      (⟨"Avis", none, some "/#avis", false⟩ : FloatingMenu.MenuItem) ∈ FloatingMenu.menuItems ∧
      FloatingMenu.handleClick "/" HomePage.elementIds ⟨"Avis", none, some "/#avis", false⟩ =
        ⟨false, some "#avis", none, none, false⟩ ∧
      FloatingMenu.handleClick "/" HomePage.elementIds ⟨"Contact", none, some "/#contact", false⟩ =
        ⟨false, some "#contact", some "contact", none, false⟩ ∧
      "services" ∉ HomePage.elementIds ∧ "avis" ∉ HomePage.elementIds := by
  refine ⟨by decide, by decide, by decide, by decide, by decide, by decide, by decide⟩

/-- C12 (menu hash links navigate home from other pages).  For every pathname
other than `/` and every document, `handleClick` on a non-link item of
`menuItems` closes the menu, assigns the item's `href` unchanged to
`window.location.href`, and neither queries the document nor scrolls; and on
any link item it only closes the menu, whatever the pathname. -/
theorem menu_hash_navigates_home (pathname : String) (document : List String) :
    (∀ item ∈ FloatingMenu.menuItems, item.isLink = false → pathname ≠ "/" →
      ∃ href, item.href = some href ∧
        FloatingMenu.handleClick pathname document item =
          ⟨false, none, none, some href, false⟩) ∧
    (∀ item : FloatingMenu.MenuItem, item.isLink = true →
      FloatingMenu.handleClick pathname document item = ⟨false, none, none, none, false⟩) := by
  constructor
  · intro item hitem hlink hpath
    simp only [FloatingMenu.menuItems, List.mem_cons, List.mem_singleton, List.not_mem_nil,
      or_false] at hitem
    rcases hitem with rfl | rfl | rfl | rfl | rfl
    · exact absurd hlink (by decide)
    · exact ⟨"/#services", rfl, by
        have hp : List.isPrefixOf "/#".data "/#services".data = true := by decide
        simp [FloatingMenu.handleClick, hp, hpath]⟩
    · exact absurd hlink (by decide)
    · exact ⟨"/#avis", rfl, by
        have hp : List.isPrefixOf "/#".data "/#avis".data = true := by decide
        simp [FloatingMenu.handleClick, hp, hpath]⟩
    · exact ⟨"/#contact", rfl, by
        have hp : List.isPrefixOf "/#".data "/#contact".data = true := by decide
        simp [FloatingMenu.handleClick, hp, hpath]⟩
  · intro item hlink
    simp [FloatingMenu.handleClick, hlink]

theorem menu_hash_navigates_home_witness :
    ∃ href, (⟨"Avis", none, some "/#avis", false⟩ : FloatingMenu.MenuItem).href = some href ∧
      FloatingMenu.handleClick "/realisations" ["contact"] ⟨"Avis", none, some "/#avis", false⟩ =
        ⟨false, none, none, some href, false⟩ :=
  (menu_hash_navigates_home "/realisations" ["contact"]).1 ⟨"Avis", none, some "/#avis", false⟩
    (by decide) rfl (by decide)

/-! ## Hero parallax -/

/-- C13 (the hero logo moves slower than the scroll).  For every scroll offset
`y ≥ 0` the logo's `translateY` is `0.4 * y`; it lies between 0 and `y`,
strictly below `y` when `y > 0`, and it does not decrease when `y` grows. -/
theorem hero_parallax_slower (y : ℚ) (hy : 0 ≤ y) :
    Hero.translateY (Hero.handleScroll y) = 0.4 * y ∧
    0 ≤ Hero.translateY (Hero.handleScroll y) ∧
    Hero.translateY (Hero.handleScroll y) ≤ y ∧
    (0 < y → Hero.translateY (Hero.handleScroll y) < y) ∧
    (∀ y', y ≤ y' →
      Hero.translateY (Hero.handleScroll y) ≤ Hero.translateY (Hero.handleScroll y')) := by
  simp only [Hero.translateY, Hero.handleScroll]
  refine ⟨by ring, by linarith, by linarith, fun h => by linarith, fun y' h => by linarith⟩

theorem hero_parallax_slower_witness :
    Hero.translateY (Hero.handleScroll 100) = 0.4 * 100 ∧
      Hero.translateY (Hero.handleScroll 100) < 100 :=
  ⟨(hero_parallax_slower 100 (by norm_num)).1,
   (hero_parallax_slower 100 (by norm_num)).2.2.2.1 (by norm_num)⟩

/-! ## Results count -/

/-- C14 (results count label).  Whatever list `filteredProjects` is and
whatever the active filter: the paragraph shows the length of the list, then
the noun, then `s` exactly when the length is greater than 1 and nothing
otherwise, then a suffix that is empty exactly when the filter is `all`.  For
every filter of `filters` taken as the active one, as many cards are rendered
as `filteredProjects` has entries, the number shown is that number, and when
the filter is not `all` the suffix is ` en ` followed by its label in lower
case (`tuiles`, `ardoise`, `zinc`, `rénovation`); the five texts shown are
`8 réalisations`, `2 réalisations en tuiles`, `2 réalisations en ardoise`,
`2 réalisations en zinc` and `2 réalisations en rénovation`. -/
theorem results_count_label :
    (∀ (filteredProjects : List RealisationsPage.Project) (activeFilter : String),
      ∃ plural suffix,
        RealisationsPage.resultsCountOf filteredProjects activeFilter =
          [toString filteredProjects.length, " réalisation", plural, suffix] ∧
        (plural = "s" ↔ 1 < filteredProjects.length) ∧
        (plural = "" ↔ filteredProjects.length ≤ 1) ∧
        (suffix = "" ↔ activeFilter = "all")) ∧
    (∀ f ∈ RealisationsPage.filters,
      (RealisationsPage.renderedCardKeys f.id).length =
        (RealisationsPage.filteredProjects f.id).length ∧
      ∃ lower,
        (f.label, lower) ∈ [("Tous", "tous"), ("Tuiles", "tuiles"), ("Ardoise", "ardoise"),
          ("Zinc", "zinc"), ("Rénovation", "rénovation")] ∧
        RealisationsPage.resultsCount f.id =
          [ toString (RealisationsPage.renderedCardKeys f.id).length,
            " réalisation",
            if 1 < (RealisationsPage.renderedCardKeys f.id).length then "s" else "",
            if f.id = "all" then "" else " en " ++ lower ]) ∧
    (String.join (RealisationsPage.resultsCount "all") = "8 réalisations" ∧
      String.join (RealisationsPage.resultsCount "tuiles") = "2 réalisations en tuiles" ∧
      String.join (RealisationsPage.resultsCount "ardoise") = "2 réalisations en ardoise" ∧
      String.join (RealisationsPage.resultsCount "zinc") = "2 réalisations en zinc" ∧
      String.join (RealisationsPage.resultsCount "renovation") =
        "2 réalisations en rénovation") := by
  refine ⟨fun filteredProjects activeFilter => ?_, fun f hf => ?_, ?_⟩
  · refine ⟨_, _, rfl, ?_, ?_, ?_⟩
    · by_cases h : 1 < filteredProjects.length
      · simp [h]
      · have hne : ("" : String) ≠ "s" := by decide
        simp [h, hne]
    · by_cases h : 1 < filteredProjects.length
      · have hne : ("s" : String) ≠ "" := by decide
        simp [h, hne]
      · simp [h]
        omega
    · by_cases h : activeFilter = "all"
      · simp [h]
      · have hne : ∀ x : String, " en " ++ x ≠ "" := by
          intro x hx
          have hd := congrArg String.length hx
          simp only [String.length_append] at hd
          have h4 : (" en " : String).length = 4 := by decide
          have h0 : ("" : String).length = 0 := by decide
          omega
        simp [h, hne]
  · have hlen : (RealisationsPage.renderedCardKeys f.id).length =
        (RealisationsPage.filteredProjects f.id).length := by
      simp [RealisationsPage.renderedCardKeys]
    refine ⟨hlen, ?_⟩
    rw [hlen]
    simp only [RealisationsPage.filters, List.mem_cons, List.mem_singleton, List.not_mem_nil,
      or_false] at hf
    rcases hf with rfl | rfl | rfl | rfl | rfl
    · exact ⟨"tous", by decide, by decide⟩
    · exact ⟨"tuiles", by decide, by decide⟩
    · exact ⟨"ardoise", by decide, by decide⟩
    · exact ⟨"zinc", by decide, by decide⟩
    · exact ⟨"rénovation", by decide, by decide⟩
  · refine ⟨by decide, by decide, by decide, by decide, by decide⟩

theorem results_count_label_witness :
    (∃ plural suffix,
      RealisationsPage.resultsCountOf
          [⟨"DUPONT", "Arras", "tuiles", "dupont.jpeg"⟩] "tuiles" =
        [toString ([⟨"DUPONT", "Arras", "tuiles", "dupont.jpeg"⟩] :
          List RealisationsPage.Project).length, " réalisation", plural, suffix] ∧
      (plural = "s" ↔
        1 < ([⟨"DUPONT", "Arras", "tuiles", "dupont.jpeg"⟩] :
          List RealisationsPage.Project).length) ∧
      (plural = "" ↔
        ([⟨"DUPONT", "Arras", "tuiles", "dupont.jpeg"⟩] :
          List RealisationsPage.Project).length ≤ 1) ∧
      (suffix = "" ↔ "tuiles" = "all")) ∧
    (∃ lower,
      ("Rénovation", lower) ∈ [("Tous", "tous"), ("Tuiles", "tuiles"), ("Ardoise", "ardoise"),
        ("Zinc", "zinc"), ("Rénovation", "rénovation")] ∧
      RealisationsPage.resultsCount "renovation" =
        [ toString (RealisationsPage.renderedCardKeys "renovation").length,
          " réalisation",
          if 1 < (RealisationsPage.renderedCardKeys "renovation").length then "s" else "",
          if "renovation" = "all" then "" else " en " ++ lower ]) :=
  ⟨results_count_label.1 [⟨"DUPONT", "Arras", "tuiles", "dupont.jpeg"⟩] "tuiles",
   (results_count_label.2.1 ⟨"renovation", "Rénovation"⟩ (by decide)).2⟩

/-! ## Live intervals of the auto-scroll effect -/

/-- C15, evaluation at the failing input.  A tap before the start delay has
elapsed: touchstart, touchend, then the start delay (handle 1) and the restart
timer (handle 2) come due.  Two intervals are then live, handles 3 and 4, and
`autoScrollRef` records only the second; when both come due the carousel
advances twice; and after the cleanup the interval with handle 3 is still in
the timer table. -/
theorem two_intervals_live :
    (TestimonialsSection.run TestimonialsSection.init
        [.touchStart, .touchEnd, .timer 1 none 0, .timer 2 none 0]).timers =
          [(3, .interval), (4, .interval)] ∧
      (TestimonialsSection.run TestimonialsSection.init
        [.touchStart, .touchEnd, .timer 1 none 0, .timer 2 none 0]).autoScrollRef = some 4 ∧
      (TestimonialsSection.run TestimonialsSection.init
        [.touchStart, .touchEnd, .timer 1 none 0, .timer 2 none 0,
          .timer 3 none 0, .timer 4 none 0]).scrolled = [320, 640] ∧
      (TestimonialsSection.run TestimonialsSection.init
        [.touchStart, .touchEnd, .timer 1 none 0, .timer 2 none 0, .cleanup]).timers =
          [(3, .interval)] := by
  have h3 : TestimonialsSection.run TestimonialsSection.init
      [.touchStart, .touchEnd, .timer 1 none 0] =
      ⟨0, false, true, some 2, some 1, some 3, true, 4, [(2, .restart), (3, .interval)], []⟩ := by
    decide
  have h4 : TestimonialsSection.run TestimonialsSection.init
      [.touchStart, .touchEnd, .timer 1 none 0, .timer 2 none 0] =
      ⟨0, false, false, some 2, some 1, some 4, true, 5, [(3, .interval), (4, .interval)], []⟩ := by
    have hrun : TestimonialsSection.run TestimonialsSection.init
        [.touchStart, .touchEnd, .timer 1 none 0, .timer 2 none 0] =
        TestimonialsSection.step (TestimonialsSection.run TestimonialsSection.init
          [.touchStart, .touchEnd, .timer 1 none 0]) (.timer 2 none 0) := rfl
    rw [hrun, h3]
    simp [TestimonialsSection.step, List.lookup, TestimonialsSection.onRestart,
      TestimonialsSection.clearTimer, TestimonialsSection.setTimer,
      TestimonialsSection.mathRound]
    norm_num
  have h6 : TestimonialsSection.run TestimonialsSection.init
      [.touchStart, .touchEnd, .timer 1 none 0, .timer 2 none 0, .timer 3 none 0,
        .timer 4 none 0] =
      TestimonialsSection.run (TestimonialsSection.run TestimonialsSection.init
        [.touchStart, .touchEnd, .timer 1 none 0, .timer 2 none 0])
        [.timer 3 none 0, .timer 4 none 0] := rfl
  have h5 : TestimonialsSection.run TestimonialsSection.init
      [.touchStart, .touchEnd, .timer 1 none 0, .timer 2 none 0, .cleanup] =
      TestimonialsSection.run (TestimonialsSection.run TestimonialsSection.init
        [.touchStart, .touchEnd, .timer 1 none 0, .timer 2 none 0]) [.cleanup] := rfl
  rw [h6, h5, h4]
  refine ⟨rfl, rfl, by decide, by decide⟩

end App
